import Mathlib

/-!
Shallow embedding of `src/lambda_source/index.py` (an AWS Lambda that toggles
an RDS instance between running and stopped, persisting state history in a
DynamoDB table and re-arming its own next trigger).

Modelling conventions:
* Wall-clock instants are `Int` seconds.  The code stores timestamps as
  strings in the fixed format `"%Y-%m-%dT%H:%M:%SZ"`, which has seconds
  precision, round-trips through `strftime`/`strptime`, and sorts
  lexicographically in chronological order; so timestamps are modelled
  directly as their epoch-second value.
* The DynamoDB partition for `StateKey = "RDSControl"` is a `List
  StateRecord`.  DynamoDB `put_item` overwrites the item with the same
  primary key (partition key + sort key), modelled as remove-then-append.
  A query with `ScanIndexForward=False, Limit=1` returns the item with the
  maximum sort key; with `ScanIndexForward=True, Limit=1` the minimum.
* Outcomes of external calls are inputs of the model: `store_fails : Bool`
  is whether the DynamoDB query/put in `get_latest_state` raises, and
  `live : Except Unit String` is the outcome of `describe_db_instances`
  (`ok status` or a raised exception).
* `datetime.now()` is called twice in the code: once in `lambda_handler`
  (line 30, parameter `now`) and once in the bootstrap path of
  `get_latest_state` (line 171, parameter `bootNow`); the second call
  happens after the first.
* Side effects (start/stop commands, EventBridge rules, SNS publishes) are
  collected in `HandlerResult`.  `put_rule`'s cron expression
  `cron(%M %H %d %m ? %Y)` renders the fire time at minute granularity;
  the model records the exact intended fire time `source_time + minutes*60`.
-/

/-- A persisted DynamoDB item: partition key `StateKey`, sort key
`Timestamp` (epoch seconds, see module comment), and the `State` label. -/
structure StateRecord where
  stateKey : String
  timestamp : Int
  state : String
deriving DecidableEq

/-- `MAX_ROWS = 10` from the source. -/
def MAX_ROWS : Nat := 10

/-- Number of items in the partition `key` (DynamoDB query with
`Select="COUNT"`). -/
def queryCount (tbl : List StateRecord) (key : String) : Nat :=
  (tbl.filter (fun r => r.stateKey == key)).length

/-- DynamoDB `put_item`: overwrites any item with the same primary key
(partition + sort key), then the new item is present. -/
def put_item (tbl : List StateRecord) (r : StateRecord) : List StateRecord :=
  tbl.filter (fun x => !(x.stateKey == r.stateKey && x.timestamp == r.timestamp)) ++ [r]

/-- DynamoDB `delete_item` by full primary key. -/
def delete_item (tbl : List StateRecord) (key : String) (ts : Int) : List StateRecord :=
  tbl.filter (fun x => !(x.stateKey == key && x.timestamp == ts))

/-- Picks the later of two records (tie kept on the left), the reduction
step computing a maximum-sort-key query result. -/
def latestFold (best x : StateRecord) : StateRecord :=
  if best.timestamp < x.timestamp then x else best

/-- Picks the earlier of two records (tie kept on the left), the reduction
step computing a minimum-sort-key query result. -/
def oldestFold (best x : StateRecord) : StateRecord :=
  if x.timestamp < best.timestamp then x else best

/-- Query with `ScanIndexForward=False, Limit=1`: the item of the partition
with the maximum sort key (timestamps are unique per partition in DynamoDB). -/
def latestItem (tbl : List StateRecord) (key : String) : Option StateRecord :=
  match tbl.filter (fun r => r.stateKey == key) with
  | [] => none
  | r :: rs => some (rs.foldl latestFold r)

/-- Query with `ScanIndexForward=True, Limit=1`: the item of the partition
with the minimum sort key. -/
def oldestItem (tbl : List StateRecord) (key : String) : Option StateRecord :=
  match tbl.filter (fun r => r.stateKey == key) with
  | [] => none
  | r :: rs => some (rs.foldl oldestFold r)

/-- `log_state_change(dynamodb_table, new_state, timestamp)`: put the new
item, count the rows for `"RDSControl"`, and if the count exceeds
`MAX_ROWS` delete the oldest item. -/
def log_state_change (tbl : List StateRecord) (new_state : String) (timestamp : Int) :
    List StateRecord :=
  let t1 := put_item tbl { stateKey := "RDSControl", timestamp := timestamp, state := new_state }
  if queryCount t1 "RDSControl" > MAX_ROWS then
    match oldestItem t1 "RDSControl" with
    | some oldest => delete_item t1 oldest.stateKey oldest.timestamp
    | none => t1
  else t1

/-- `get_latest_state(table, state_key)`.  On success returns the (possibly
bootstrapped) table together with the record used; `store_fails = true`
models the DynamoDB query/put raising inside the `try` block, where the
code returns the exception object `e` (and the caller's subscript of it
then raises).  `bootNow` is the `datetime.now()` taken inside the bootstrap
branch (source line 171). -/
def get_latest_state (store_fails : Bool) (tbl : List StateRecord) (state_key : String)
    (bootNow : Int) (startAfterDays : Int) :
    Except Unit (List StateRecord × StateRecord) :=
  if store_fails then Except.error () else
  match latestItem tbl state_key with
  | some r => Except.ok (tbl, r)
  | none =>
    let start_time := bootNow - (startAfterDays + 1) * 86400
    let initial_state : StateRecord :=
      { stateKey := state_key, timestamp := start_time, state := "stopped" }
    Except.ok (put_item tbl initial_state, initial_state)

/-- `get_rds_instance_current_status(rds_client, rds_instance_id)`: the
reported `DBInstanceStatus` on success, the sentinel `"unknown"` when the
describe call raises. -/
def get_rds_instance_current_status (live : Except Unit String) : String :=
  match live with
  | Except.ok s => s
  | Except.error _ => "unknown"

/-- An EventBridge rule created by `schedule_next_event`. -/
structure ScheduledRule where
  ruleName : String
  fireTime : Int
  targetArn : String
deriving DecidableEq

/-- `schedule_next_event(events_client, action, minutes, lambda_function_arn,
source_time)`: a one-shot rule named `action ++ "-lambda-trigger"` firing at
`source_time + minutes` minutes, targeting the function's own ARN. -/
def schedule_next_event (action : String) (minutes : Int) (lambda_function_arn : String)
    (source_time : Int) : ScheduledRule :=
  { ruleName := action ++ "-lambda-trigger"
    fireTime := source_time + minutes * 60
    targetArn := lambda_function_arn }

/-- An SNS publish performed by `publish_sns_message`. -/
structure SnsMessage where
  message : String
  subject : String
deriving DecidableEq

/-- The dict returned by `lambda_handler`. -/
structure ReturnPayload where
  message : String
  state : String
  timestamp : Int
deriving DecidableEq

/-- Environment configuration read at module scope in the source
(`RDS_INSTANCE_ID`, `STOP_AFTER_MINUTES` default 30, `START_AFTER_DAYS`
default 6). -/
structure Config where
  rdsInstanceId : String
  stopAfterMinutes : Int
  startAfterDays : Int
deriving DecidableEq

/-- Everything one invocation does: final table contents, the records put
by `log_state_change` calls in order (`writes`, each call puts exactly one
record), the start/stop commands issued, the rules scheduled, the SNS
messages published, and the returned payload. -/
structure HandlerResult where
  table : List StateRecord
  writes : List StateRecord
  rdsStartCalls : List String
  rdsStopCalls : List String
  scheduledRules : List ScheduledRule
  snsPublished : List SnsMessage
  payload : ReturnPayload
deriving DecidableEq

/-- The body of `lambda_handler` after `get_latest_state` has succeeded
(source lines 33-95): drift correction followed by the transition rule.
`Int.fdiv time 86400` is Python's `timedelta.days` (floor division);
`time_since_last_action` itself is `timedelta.total_seconds()`. -/
def decide_pass (cfg : Config) (arn : String) (live : Except Unit String)
    (tbl0 : List StateRecord) (last_state : StateRecord) (now : Int) : HandlerResult :=
  let state := last_state.state
  let last_action_time := last_state.timestamp
  let time_since_last_action := now - last_action_time
  let current_rds_state := get_rds_instance_current_status live
  let tbl1 := if current_rds_state = state then tbl0
              else log_state_change tbl0 current_rds_state now
  let state1 := if current_rds_state = state then state else current_rds_state
  let writes0 : List StateRecord :=
    if current_rds_state = state then []
    else [{ stateKey := "RDSControl", timestamp := now, state := current_rds_state }]
  if state1 = "stopped" ∧ Int.fdiv time_since_last_action 86400 ≥ cfg.startAfterDays then
    { table := log_state_change tbl1 "available" now
      writes := writes0 ++ [{ stateKey := "RDSControl", timestamp := now, state := "available" }]
      rdsStartCalls := [cfg.rdsInstanceId]
      rdsStopCalls := []
      scheduledRules := [schedule_next_event "stop-instance" cfg.stopAfterMinutes arn now]
      snsPublished := [{ message := "RDS instance " ++ cfg.rdsInstanceId ++
                           " has been started at " ++ toString now ++
                           " and will be stopped after " ++ toString cfg.stopAfterMinutes ++
                           " minutes."
                         subject := "RDS Manager - Instance Started" }]
      payload := { message := "RDS instance " ++ state1 ++ "."
                   state := state1
                   timestamp := now } }
  else if state1 = "available" ∧ time_since_last_action ≥ cfg.stopAfterMinutes * 60 then
    { table := log_state_change tbl1 "stopped" now
      writes := writes0 ++ [{ stateKey := "RDSControl", timestamp := now, state := "stopped" }]
      rdsStartCalls := []
      rdsStopCalls := [cfg.rdsInstanceId]
      scheduledRules := [schedule_next_event "start-instance" (cfg.startAfterDays * 1440) arn now]
      snsPublished := [{ message := "RDS instance " ++ cfg.rdsInstanceId ++
                           " has been stopped at " ++ toString now ++
                           " and will be started again in " ++ toString cfg.startAfterDays ++
                           " days."
                         subject := "RDS Manager - Instance Stopped" }]
      payload := { message := "RDS instance " ++ state1 ++ "."
                   state := state1
                   timestamp := now } }
  else
    { table := tbl1
      writes := writes0
      rdsStartCalls := []
      rdsStopCalls := []
      scheduledRules := []
      snsPublished := [{ message := "RDS instance " ++ cfg.rdsInstanceId ++
                           " is in state " ++ state1 ++ "."
                         subject := "RDS Manager - No Action Taken" }]
      payload := { message := "RDS instance " ++ state1 ++ "."
                   state := state1
                   timestamp := now } }

/-- `lambda_handler(event, context)`.  When `get_latest_state` fails it
returns the exception object; the handler then subscripts it
(`last_state["State"]`), which raises `TypeError`, so the invocation aborts
with no result: modelled as `Except.error`. -/
def lambda_handler (cfg : Config) (arn : String) (store_fails : Bool)
    (live : Except Unit String) (tbl : List StateRecord) (now bootNow : Int) :
    Except Unit HandlerResult :=
  match get_latest_state store_fails tbl "RDSControl" bootNow cfg.startAfterDays with
  | Except.error e => Except.error e
  | Except.ok (tbl0, last_state) => Except.ok (decide_pass cfg arn live tbl0 last_state now)

/-- Primary keys (`StateKey`, `Timestamp`) are pairwise distinct — the
DynamoDB table invariant. -/
@[reducible] def KeysNodup (tbl : List StateRecord) : Prop :=
  List.Pairwise (fun a b => ¬ (a.stateKey = b.stateKey ∧ a.timestamp = b.timestamp)) tbl

/-- A ten-record partition used to exercise the retention bound. -/
def retentionWitnessTable : List StateRecord :=
  [{ stateKey := "RDSControl", timestamp := 0, state := "stopped" },
   { stateKey := "RDSControl", timestamp := 1, state := "stopped" },
   { stateKey := "RDSControl", timestamp := 2, state := "stopped" },
   { stateKey := "RDSControl", timestamp := 3, state := "stopped" },
   { stateKey := "RDSControl", timestamp := 4, state := "stopped" },
   { stateKey := "RDSControl", timestamp := 5, state := "stopped" },
   { stateKey := "RDSControl", timestamp := 6, state := "stopped" },
   { stateKey := "RDSControl", timestamp := 7, state := "stopped" },
   { stateKey := "RDSControl", timestamp := 8, state := "stopped" },
   { stateKey := "RDSControl", timestamp := 9, state := "stopped" }]


lemma get_latest_state_found {tbl : List StateRecord} {k : String} {r : StateRecord}
    (bn sa : Int) (hL : latestItem tbl k = some r) :
    get_latest_state false tbl k bn sa = Except.ok (tbl, r) := by
  simp [get_latest_state, hL]

lemma lambda_handler_found {cfg : Config} {arn : String} {live : Except Unit String}
    {tbl : List StateRecord} {now bn : Int} {r : StateRecord}
    (hL : latestItem tbl "RDSControl" = some r) :
    lambda_handler cfg arn false live tbl now bn =
      Except.ok (decide_pass cfg arn live tbl r now) := by
  simp [lambda_handler, get_latest_state_found bn cfg.startAfterDays hL]

lemma get_latest_state_none {tbl : List StateRecord} {k : String}
    (bn sa : Int) (hL : latestItem tbl k = none) :
    get_latest_state false tbl k bn sa =
      Except.ok (put_item tbl { stateKey := k, timestamp := bn - (sa + 1) * 86400, state := "stopped" },
        { stateKey := k, timestamp := bn - (sa + 1) * 86400, state := "stopped" }) := by
  simp [get_latest_state, hL]

lemma lambda_handler_none {cfg : Config} {arn : String} {live : Except Unit String}
    {tbl : List StateRecord} {now bn : Int}
    (hL : latestItem tbl "RDSControl" = none) :
    lambda_handler cfg arn false live tbl now bn =
      Except.ok (decide_pass cfg arn live
        (put_item tbl { stateKey := "RDSControl",
                        timestamp := bn - (cfg.startAfterDays + 1) * 86400, state := "stopped" })
        { stateKey := "RDSControl",
          timestamp := bn - (cfg.startAfterDays + 1) * 86400, state := "stopped" } now) := by
  simp [lambda_handler, get_latest_state_none bn cfg.startAfterDays hL]

lemma decide_pass_error_no_commands (cfg : Config) (arn : String) (tbl0 : List StateRecord)
    (last : StateRecord) (now : Int) :
    (decide_pass cfg arn (Except.error ()) tbl0 last now).rdsStartCalls = [] ∧
    (decide_pass cfg arn (Except.error ()) tbl0 last now).rdsStopCalls = [] := by
  obtain ⟨k, ts, st⟩ := last
  by_cases h : ("unknown" : String) = st
  · subst h
    simp [decide_pass, get_rds_instance_current_status]
  · simp [decide_pass, get_rds_instance_current_status, h]

/-- C3: a failure querying the live RDS status does not crash the decision
pass: the status degrades to the sentinel `"unknown"`, which satisfies
neither transition branch, so no start and no stop command is issued. -/
theorem statusFailure_safe_noop (cfg : Config) (arn : String) (tbl : List StateRecord)
    (now bootNow : Int) :
    get_rds_instance_current_status (Except.error ()) = "unknown" ∧
    ∃ res, lambda_handler cfg arn false (Except.error ()) tbl now bootNow = Except.ok res ∧
      res.rdsStartCalls = [] ∧ res.rdsStopCalls = [] := by
  refine ⟨rfl, ?_⟩
  cases hL : latestItem tbl "RDSControl" with
  | some r =>
    exact ⟨_, lambda_handler_found hL, (decide_pass_error_no_commands cfg arn tbl r now).1,
      (decide_pass_error_no_commands cfg arn tbl r now).2⟩
  | none =>
    exact ⟨_, lambda_handler_none hL, (decide_pass_error_no_commands cfg arn _ _ now).1,
      (decide_pass_error_no_commands cfg arn _ _ now).2⟩

/-- C4: a failure reading the state store on the critical path is fatal to
the invocation: no result payload is returned. -/
theorem storeFailure_fatal (cfg : Config) (arn : String) (live : Except Unit String)
    (tbl : List StateRecord) (now bootNow : Int) :
    lambda_handler cfg arn true live tbl now bootNow = Except.error () := by
  simp [lambda_handler, get_latest_state]

/-- C9: when the live status query fails and the last persisted state is
not `"unknown"`, drift correction writes `{State: "unknown", Timestamp:
now}` to the store even though no start/stop command is issued. -/
theorem statusFailure_writes_unknown (cfg : Config) (arn : String) (tbl : List StateRecord)
    (now bootNow : Int) (r : StateRecord)
    (hL : latestItem tbl "RDSControl" = some r)
    (hs : r.state ≠ "unknown") :
    ∃ res, lambda_handler cfg arn false (Except.error ()) tbl now bootNow = Except.ok res ∧
      res.writes = [{ stateKey := "RDSControl", timestamp := now, state := "unknown" }] ∧
      res.table = log_state_change tbl "unknown" now ∧
      res.rdsStartCalls = [] ∧ res.rdsStopCalls = [] := by
  refine ⟨_, lambda_handler_found hL, ?_, ?_, ?_, ?_⟩ <;>
  · obtain ⟨k, ts, st⟩ := r
    simp only at hs
    have h : ¬ (("unknown" : String) = st) := fun hh => hs hh.symm
    simp [decide_pass, get_rds_instance_current_status, h]

/-- C10: the elapsed time of the transition rule is taken from the
pre-drift record: with persisted `"stopped"` at an old-enough timestamp and
live status `"available"`, the same invocation drift-corrects to
`"available"` and then issues a stop command. -/
theorem stop_uses_preDrift_elapsed (cfg : Config) (arn : String) (tbl : List StateRecord)
    (now bootNow : Int) (r : StateRecord)
    (hL : latestItem tbl "RDSControl" = some r)
    (hs : r.state = "stopped")
    (hge : cfg.stopAfterMinutes * 60 ≤ now - r.timestamp) :
    ∃ res, lambda_handler cfg arn false (Except.ok "available") tbl now bootNow = Except.ok res ∧
      res.rdsStopCalls = [cfg.rdsInstanceId] ∧ res.rdsStartCalls = [] ∧
      res.writes = [{ stateKey := "RDSControl", timestamp := now, state := "available" },
                    { stateKey := "RDSControl", timestamp := now, state := "stopped" }] := by
  refine ⟨_, lambda_handler_found hL, ?_, ?_, ?_⟩ <;>
  · obtain ⟨k, ts, st⟩ := r
    simp only at hs hge
    subst hs
    simp [decide_pass, get_rds_instance_current_status, hge]

/-- C7: with persisted state `"stopped"` and live status `"available"`,
the invocation persists `"available"` as a new record (the first write of
the pass), adopts it as the current state, and never calls start. -/
theorem drift_correction_no_start (cfg : Config) (arn : String) (tbl : List StateRecord)
    (now bootNow : Int) (r : StateRecord)
    (hL : latestItem tbl "RDSControl" = some r)
    (hs : r.state = "stopped") :
    ∃ res, lambda_handler cfg arn false (Except.ok "available") tbl now bootNow = Except.ok res ∧
      res.rdsStartCalls = [] ∧
      res.writes.head? = some { stateKey := "RDSControl", timestamp := now, state := "available" } ∧
      res.payload.state = "available" := by
  refine ⟨_, lambda_handler_found hL, ?_, ?_, ?_⟩ <;>
  · obtain ⟨k, ts, st⟩ := r
    simp only at hs
    subst hs
    by_cases hge : cfg.stopAfterMinutes * 60 ≤ now - ts
    · simp [decide_pass, get_rds_instance_current_status, hge]
    · simp [decide_pass, get_rds_instance_current_status, hge]

lemma decide_pass_noop (cfg : Config) (arn : String) (tbl : List StateRecord)
    (r : StateRecord) (now : Int)
    (hs : r.state = "available")
    (hlt : now - r.timestamp < cfg.stopAfterMinutes * 60) :
    decide_pass cfg arn (Except.ok "available") tbl r now =
      { table := tbl, writes := [], rdsStartCalls := [], rdsStopCalls := [],
        scheduledRules := [],
        snsPublished := [{ message := "RDS instance " ++ cfg.rdsInstanceId ++
                             " is in state available."
                           subject := "RDS Manager - No Action Taken" }],
        payload := { message := "RDS instance available.", state := "available",
                     timestamp := now } } := by
  obtain ⟨k, ts, st⟩ := r
  simp only at hs hlt
  subst hs
  have h2 : ¬ (cfg.stopAfterMinutes * 60 ≤ now - ts) := not_le.mpr hlt
  simp [decide_pass, get_rds_instance_current_status, h2, String.append_assoc]

/-- C8: with persisted and live state `"available"` and elapsed time
strictly below `stop_after` minutes, an invocation issues no command and
leaves the store untouched, so repeated invocations are idempotent. -/
theorem idempotent_noop (cfg : Config) (arn : String) (tbl : List StateRecord)
    (now bootNow : Int) (r : StateRecord)
    (hL : latestItem tbl "RDSControl" = some r)
    (hs : r.state = "available")
    (hlt : now - r.timestamp < cfg.stopAfterMinutes * 60) :
    ∃ res, lambda_handler cfg arn false (Except.ok "available") tbl now bootNow = Except.ok res ∧
      res.rdsStopCalls = [] ∧ res.rdsStartCalls = [] ∧
      res.writes = [] ∧ res.table = tbl := by
  refine ⟨_, lambda_handler_found hL, ?_, ?_, ?_, ?_⟩ <;>
    rw [decide_pass_noop cfg arn tbl r now hs hlt]

lemma queryCount_put_le (tbl : List StateRecord) (r : StateRecord) (key : String) :
    queryCount (put_item tbl r) key ≤ queryCount tbl key + 1 := by
  unfold queryCount put_item
  rw [List.filter_append, List.length_append]
  have h1 : ((tbl.filter fun x => !(x.stateKey == r.stateKey && x.timestamp == r.timestamp)).filter
      (fun x => x.stateKey == key)).length ≤ (tbl.filter (fun x => x.stateKey == key)).length :=
    (List.Sublist.filter _ (List.filter_sublist tbl)).length_le
  have h2 : ([r].filter (fun x => x.stateKey == key)).length ≤ 1 := by
    by_cases hp : (r.stateKey == key) = true <;> simp [hp]
  omega

lemma log_state_change_small (tbl : List StateRecord) (s : String) (t : Int)
    (h : queryCount (put_item tbl { stateKey := "RDSControl", timestamp := t, state := s })
        "RDSControl" ≤ MAX_ROWS) :
    log_state_change tbl s t =
      put_item tbl { stateKey := "RDSControl", timestamp := t, state := s } := by
  simp only [log_state_change]
  rw [if_neg (not_lt.mpr h)]

lemma mem_put_item_self (tbl : List StateRecord) (r : StateRecord) : r ∈ put_item tbl r := by
  simp [put_item]

lemma mem_put_item_of_mem {tbl : List StateRecord} {r x : StateRecord} (hx : x ∈ tbl)
    (hne : ¬ (x.stateKey = r.stateKey ∧ x.timestamp = r.timestamp)) : x ∈ put_item tbl r := by
  unfold put_item
  refine List.mem_append_left _ (List.mem_filter.mpr ⟨hx, ?_⟩)
  rcases not_and_or.mp hne with h | h <;> simp [h]

lemma filter_eq_nil_of_latestItem_none {tbl : List StateRecord} {k : String}
    (hL : latestItem tbl k = none) : tbl.filter (fun r => r.stateKey == k) = [] := by
  unfold latestItem at hL
  cases hf : tbl.filter (fun r => r.stateKey == k) with
  | nil => rfl
  | cons a l => rw [hf] at hL; cases hL

lemma queryCount_eq_zero_of_latestItem_none {tbl : List StateRecord} {k : String}
    (hL : latestItem tbl k = none) : queryCount tbl k = 0 := by
  unfold queryCount
  rw [filter_eq_nil_of_latestItem_none hL]
  rfl

/-- Records surviving a write survive in the store when the retention bound
is not yet exceeded after the put. -/
lemma mem_log_state_change_of_mem {tbl : List StateRecord} {x : StateRecord} (s : String)
    (now : Int) (hx : x ∈ tbl)
    (hne : ¬ (x.stateKey = "RDSControl" ∧ x.timestamp = now))
    (hc : queryCount (put_item tbl { stateKey := "RDSControl", timestamp := now, state := s })
        "RDSControl" ≤ MAX_ROWS) :
    x ∈ log_state_change tbl s now := by
  rw [log_state_change_small _ _ _ hc]
  exact mem_put_item_of_mem hx hne

/-- C5: with no prior record, a synthetic bootstrap record with state
`"stopped"` and a timestamp more than `start_after` days in the past is
created and used, so the first invocation (live status matching) issues a
start. -/
theorem bootstrap_starts (cfg : Config) (arn : String) (tbl : List StateRecord)
    (now bootNow : Int)
    (hL : latestItem tbl "RDSControl" = none)
    (hd : 0 ≤ cfg.startAfterDays)
    (hb1 : now ≤ bootNow) (hb2 : bootNow < now + 86400) :
    ∃ res, lambda_handler cfg arn false (Except.ok "stopped") tbl now bootNow = Except.ok res ∧
      ({ stateKey := "RDSControl", timestamp := bootNow - (cfg.startAfterDays + 1) * 86400,
         state := "stopped" } : StateRecord) ∈ res.table ∧
      bootNow - (cfg.startAfterDays + 1) * 86400 < now - cfg.startAfterDays * 86400 ∧
      res.rdsStartCalls = [cfg.rdsInstanceId] ∧
      res.writes = [{ stateKey := "RDSControl", timestamp := now, state := "available" }] := by
  have hcond : cfg.startAfterDays ≤
      Int.fdiv (now - (bootNow - (cfg.startAfterDays + 1) * 86400)) 86400 := by
    rw [Int.fdiv_eq_ediv _ (by norm_num)]
    omega
  refine ⟨_, lambda_handler_none hL, ?_, by omega, ?_, ?_⟩
  · simp [decide_pass, get_rds_instance_current_status, hcond]
    refine mem_log_state_change_of_mem _ _ (mem_put_item_self _ _) ?_ ?_
    · simp only [not_and]
      intro _
      omega
    · refine le_trans (queryCount_put_le _ _ _) ?_
      refine le_trans (Nat.add_le_add_right (queryCount_put_le _ _ _) 1) ?_
      rw [queryCount_eq_zero_of_latestItem_none hL]
      decide
  · simp [decide_pass, get_rds_instance_current_status, hcond]
  · simp [decide_pass, get_rds_instance_current_status, hcond]

/-- C2 (amended): in the no-op scenario nothing is commanded or persisted
and the payload state is `"available"`, but the returned message is `"RDS
instance available."`, which does not contain `"no action"`; the "no
action" wording appears only in the SNS notification subject. -/
theorem noop_scenario (cfg : Config) (arn : String) (tbl : List StateRecord)
    (now bootNow : Int) (r : StateRecord)
    (hL : latestItem tbl "RDSControl" = some r)
    (hs : r.state = "available")
    (hlt : now - r.timestamp < cfg.stopAfterMinutes * 60) :
    ∃ res, lambda_handler cfg arn false (Except.ok "available") tbl now bootNow = Except.ok res ∧
      res.rdsStartCalls = [] ∧ res.rdsStopCalls = [] ∧ res.writes = [] ∧ res.table = tbl ∧
      res.payload.state = "available" ∧
      res.payload.message = "RDS instance available." ∧
      ¬ ("no action".data <:+: res.payload.message.data) ∧
      res.snsPublished.map SnsMessage.subject = ["RDS Manager - No Action Taken"] := by
  refine ⟨_, lambda_handler_found hL, ?_⟩
  rw [decide_pass_noop cfg arn tbl r now hs hlt]
  refine ⟨rfl, rfl, rfl, rfl, rfl, rfl, ?_, rfl⟩
  show ¬ ("no action".data <:+: "RDS instance available.".data)
  decide

/-- The C2 scenario run concretely: the returned payload's message is
`"RDS instance available."`, which does not contain the text
`"no action"` (in any casing used by the code). -/
theorem noop_message_counterexample :
    (lambda_handler { rdsInstanceId := "db1", stopAfterMinutes := 30, startAfterDays := 6 } "arn"
        false (Except.ok "available")
        [{ stateKey := "RDSControl", timestamp := 1400, state := "available" }] 2000
        2000).toOption.map (fun res => (res.payload.state, res.payload.message)) =
      some ("available", "RDS instance available.") ∧
    ¬ ("no action".data <:+: "RDS instance available.".data) ∧
    ¬ ("No Action".data <:+: "RDS instance available.".data) := by
  exact ⟨by decide, by decide, by decide⟩

/-- C1 (amended): in the start scenario the engine calls start, persists
`{State: "available", Timestamp: T}`, schedules the stop rule at T+30min,
publishes the "started" notification — but the returned payload's state
field is the pre-transition label `"stopped"` (with timestamp T), because
the handler does not update its local `state` variable in the start
branch. -/
theorem start_scenario (cfg : Config) (arn : String) (now : Int)
    (h30 : cfg.stopAfterMinutes = 30) (h6 : cfg.startAfterDays = 6) :
    ∃ res, lambda_handler cfg arn false (Except.ok "stopped")
        [{ stateKey := "RDSControl", timestamp := now - 7 * 86400, state := "stopped" }]
        now now = Except.ok res ∧
      res.rdsStartCalls = [cfg.rdsInstanceId] ∧ res.rdsStopCalls = [] ∧
      res.writes = [{ stateKey := "RDSControl", timestamp := now, state := "available" }] ∧
      res.table = [{ stateKey := "RDSControl", timestamp := now - 7 * 86400, state := "stopped" },
                   { stateKey := "RDSControl", timestamp := now, state := "available" }] ∧
      res.scheduledRules = [{ ruleName := "stop-instance-lambda-trigger",
                              fireTime := now + 30 * 60, targetArn := arn }] ∧
      res.snsPublished.map SnsMessage.subject = ["RDS Manager - Instance Started"] ∧
      res.payload.state = "stopped" ∧ res.payload.timestamp = now := by
  have hL : latestItem
      [{ stateKey := "RDSControl", timestamp := now - 7 * 86400, state := "stopped" }]
      "RDSControl" =
      some { stateKey := "RDSControl", timestamp := now - 7 * 86400, state := "stopped" } := rfl
  have hne : ¬ ((now - 7 * 86400 : Int) = now) := by omega
  refine ⟨_, lambda_handler_found hL, ?_, ?_, ?_, ?_, ?_, ?_, ?_, ?_⟩ <;>
    simp [decide_pass, get_rds_instance_current_status, log_state_change, put_item,
      queryCount, hne, h30, h6, schedule_next_event, MAX_ROWS]

/-- The C1 scenario run concretely: start is called, yet the returned
payload's state field is `"stopped"`, not the started/available label. -/
theorem start_payload_counterexample :
    (lambda_handler { rdsInstanceId := "db1", stopAfterMinutes := 30, startAfterDays := 6 } "arn"
        false (Except.ok "stopped")
        [{ stateKey := "RDSControl", timestamp := 1000000 - 7 * 86400, state := "stopped" }]
        1000000 1000000).toOption.map (fun res => (res.payload.state, res.rdsStartCalls)) =
      some ("stopped", ["db1"]) ∧
    ("stopped" : String) ≠ "available" ∧ ("stopped" : String) ≠ "available/started" := by
  exact ⟨by decide, by decide, by decide⟩

lemma oldestFold_spec (rs : List StateRecord) (r : StateRecord) :
    rs.foldl oldestFold r ∈ r :: rs ∧
    (rs.foldl oldestFold r).timestamp ≤ r.timestamp ∧
    ∀ x ∈ rs, (rs.foldl oldestFold r).timestamp ≤ x.timestamp := by
  induction rs generalizing r with
  | nil => simp
  | cons y ys ih =>
    obtain ⟨ih1, ih2, ih3⟩ := ih (oldestFold r y)
    have hmem : oldestFold r y = r ∨ oldestFold r y = y := by
      unfold oldestFold
      split <;> simp
    have hler : (oldestFold r y).timestamp ≤ r.timestamp := by
      unfold oldestFold
      split <;> omega
    have hley : (oldestFold r y).timestamp ≤ y.timestamp := by
      unfold oldestFold
      split <;> omega
    rw [List.foldl_cons]
    refine ⟨?_, le_trans ih2 hler, ?_⟩
    · rcases List.mem_cons.mp ih1 with h | h
      · rcases hmem with h2 | h2
        · exact List.mem_cons.mpr (Or.inl (h.trans h2))
        · exact List.mem_cons.mpr (Or.inr (List.mem_cons.mpr (Or.inl (h.trans h2))))
      · exact List.mem_cons.mpr (Or.inr (List.mem_cons.mpr (Or.inr h)))
    · intro x hx
      rcases List.mem_cons.mp hx with h | h
      · rw [h]
        exact le_trans ih2 hley
      · exact ih3 x h

lemma oldestItem_spec {tbl : List StateRecord} {key : String} {o : StateRecord}
    (h : oldestItem tbl key = some o) :
    o ∈ tbl ∧ o.stateKey = key ∧
      ∀ x ∈ tbl, x.stateKey = key → o.timestamp ≤ x.timestamp := by
  unfold oldestItem at h
  rcases hf : tbl.filter (fun r => r.stateKey == key) with _ | ⟨r, rs⟩ <;> rw [hf] at h
  · cases h
  · injection h with h'
    obtain ⟨h1, h2, h3⟩ := oldestFold_spec rs r
    rw [h'] at h1 h2 h3
    have hmemf : o ∈ tbl.filter (fun r => r.stateKey == key) := by
      rw [hf]
      exact h1
    refine ⟨List.mem_of_mem_filter hmemf, by simpa using List.of_mem_filter hmemf, ?_⟩
    intro x hx hkx
    have hxf : x ∈ tbl.filter (fun r => r.stateKey == key) :=
      List.mem_filter.mpr ⟨hx, by simp [hkx]⟩
    rw [hf] at hxf
    rcases List.mem_cons.mp hxf with hcase | hcase
    · rw [hcase]
      exact h2
    · exact h3 x hcase

lemma oldestItem_some_of_pos {tbl : List StateRecord} {key : String}
    (h : 0 < queryCount tbl key) : ∃ o, oldestItem tbl key = some o := by
  unfold queryCount at h
  unfold oldestItem
  rcases hf : tbl.filter (fun r => r.stateKey == key) with _ | ⟨r, rs⟩
  · rw [hf] at h
    simp at h
  · rw [hf]
    exact ⟨_, rfl⟩

lemma length_filter_split (l : List StateRecord) (p q : StateRecord → Bool) :
    (l.filter p).length =
      (l.filter (fun x => p x && q x)).length +
        (l.filter (fun x => p x && !(q x))).length := by
  induction l with
  | nil => rfl
  | cons a l ih =>
    cases hp : p a <;> cases hq : q a <;>
      simp [List.filter_cons, hp, hq, ih] <;> omega

lemma count_match_le_one {l : List StateRecord} (o : StateRecord)
    (hN : List.Pairwise (fun a b => ¬ (a.stateKey = b.stateKey ∧ a.timestamp = b.timestamp)) l) :
    (l.filter (fun x => x.stateKey == o.stateKey && x.timestamp == o.timestamp)).length ≤ 1 := by
  induction l with
  | nil => simp
  | cons a l ih =>
    obtain ⟨ha1, ha2⟩ := List.pairwise_cons.mp hN
    by_cases ha : (a.stateKey == o.stateKey && a.timestamp == o.timestamp) = true
    · have hnil : l.filter (fun x => x.stateKey == o.stateKey && x.timestamp == o.timestamp)
          = [] := by
        refine List.filter_eq_nil_iff.mpr ?_
        intro b hb hpb
        have haP : a.stateKey = o.stateKey ∧ a.timestamp = o.timestamp := by simpa using ha
        have hbP : b.stateKey = o.stateKey ∧ b.timestamp = o.timestamp := by simpa using hpb
        exact ha1 b hb ⟨haP.1.trans hbP.1.symm, haP.2.trans hbP.2.symm⟩
      simp [List.filter_cons, ha, hnil]
    · have ha' : (a.stateKey == o.stateKey && a.timestamp == o.timestamp) = false := by
        revert ha
        cases a.stateKey == o.stateKey && a.timestamp == o.timestamp <;> simp
      simp only [List.filter_cons, ha', cond_false]
      exact ih ha2

lemma keysNodup_put {tbl : List StateRecord} (hN : KeysNodup tbl) (r : StateRecord) :
    KeysNodup (put_item tbl r) := by
  unfold KeysNodup put_item
  rw [List.pairwise_append]
  refine ⟨List.Pairwise.sublist (List.filter_sublist tbl) hN,
    List.pairwise_singleton _ _, ?_⟩
  intro a ha b hb
  rw [List.mem_singleton.mp hb]
  intro hcon
  have hpa := List.of_mem_filter ha
  simp [hcon.1, hcon.2] at hpa

lemma queryCount_delete_oldest {t1 : List StateRecord} {o : StateRecord} (key : String)
    (hN : KeysNodup t1) (ho : o ∈ t1) (hk : o.stateKey = key) :
    queryCount (delete_item t1 o.stateKey o.timestamp) key = queryCount t1 key - 1 := by
  unfold queryCount delete_item
  rw [List.filter_filter]
  have hsplit := length_filter_split t1 (fun x => x.stateKey == key)
    (fun x => x.stateKey == o.stateKey && x.timestamp == o.timestamp)
  have hcongr : t1.filter (fun x =>
      (x.stateKey == key) && (x.stateKey == o.stateKey && x.timestamp == o.timestamp)) =
      t1.filter (fun x => x.stateKey == o.stateKey && x.timestamp == o.timestamp) := by
    refine List.filter_congr ?_
    intro x _
    by_cases hm : (x.stateKey == o.stateKey && x.timestamp == o.timestamp) = true
    · have hxk : (x.stateKey == key) = true := by
        have hxo : x.stateKey = o.stateKey ∧ x.timestamp = o.timestamp := by simpa using hm
        simp [hxo.1, hk]
      rw [hm, hxk]
      rfl
    · have hm' : (x.stateKey == o.stateKey && x.timestamp == o.timestamp) = false := by
        revert hm
        cases x.stateKey == o.stateKey && x.timestamp == o.timestamp <;> simp
      rw [hm']
      simp
  have hone : (t1.filter (fun x =>
      x.stateKey == o.stateKey && x.timestamp == o.timestamp)).length = 1 := by
    have hle := count_match_le_one o hN
    have hpos : 0 < (t1.filter (fun x =>
        x.stateKey == o.stateKey && x.timestamp == o.timestamp)).length := by
      have : o ∈ t1.filter (fun x => x.stateKey == o.stateKey && x.timestamp == o.timestamp) :=
        List.mem_filter.mpr ⟨ho, by simp⟩
      calc 0 < 1 := one_pos
        _ ≤ _ := List.length_pos.mpr (List.ne_nil_of_mem this)
    omega
  have hmatch : (t1.filter (fun x =>
      (x.stateKey == key) && (x.stateKey == o.stateKey && x.timestamp == o.timestamp))).length
      = 1 := by rw [hcongr, hone]
  omega

/-- C6: after each write, if the partition's row count exceeds `MAX_ROWS`
exactly one delete of the oldest (minimum-timestamp) record occurs, so a
partition within the bound before a write stays within it after the write. -/
theorem retention_bound (tbl : List StateRecord) (s : String) (t : Int)
    (hN : KeysNodup tbl)
    (hc : queryCount tbl "RDSControl" ≤ MAX_ROWS) :
    queryCount (log_state_change tbl s t) "RDSControl" ≤ MAX_ROWS ∧
    (MAX_ROWS < queryCount (put_item tbl { stateKey := "RDSControl", timestamp := t, state := s })
        "RDSControl" →
      ∃ o, oldestItem (put_item tbl { stateKey := "RDSControl", timestamp := t, state := s })
          "RDSControl" = some o ∧
        o.stateKey = "RDSControl" ∧
        (∀ x ∈ put_item tbl { stateKey := "RDSControl", timestamp := t, state := s },
          x.stateKey = "RDSControl" → o.timestamp ≤ x.timestamp) ∧
        log_state_change tbl s t =
          delete_item (put_item tbl { stateKey := "RDSControl", timestamp := t, state := s })
            o.stateKey o.timestamp ∧
        queryCount (log_state_change tbl s t) "RDSControl" =
          queryCount (put_item tbl { stateKey := "RDSControl", timestamp := t, state := s })
            "RDSControl" - 1) := by
  have hle := queryCount_put_le tbl { stateKey := "RDSControl", timestamp := t, state := s }
    "RDSControl"
  by_cases hgt : MAX_ROWS < queryCount
      (put_item tbl { stateKey := "RDSControl", timestamp := t, state := s }) "RDSControl"
  · obtain ⟨o, ho⟩ := oldestItem_some_of_pos (lt_of_le_of_lt (Nat.zero_le _) hgt)
    obtain ⟨homem, hok, homin⟩ := oldestItem_spec ho
    have hNt1 : KeysNodup (put_item tbl { stateKey := "RDSControl", timestamp := t, state := s }) :=
      keysNodup_put hN _
    have heq : log_state_change tbl s t =
        delete_item (put_item tbl { stateKey := "RDSControl", timestamp := t, state := s })
          o.stateKey o.timestamp := by
      simp only [log_state_change]
      rw [if_pos hgt, ho]
    have hcnt := queryCount_delete_oldest "RDSControl" hNt1 homem hok
    refine ⟨?_, fun _ => ⟨o, ho, hok, fun x hx hkx => homin x hx hkx, heq, by rw [heq, hcnt]⟩⟩
    rw [heq, hcnt]
    unfold MAX_ROWS at hc hgt ⊢
    omega
  · have heq : log_state_change tbl s t =
        put_item tbl { stateKey := "RDSControl", timestamp := t, state := s } := by
      simp only [log_state_change]
      rw [if_neg hgt]
    refine ⟨?_, fun hg => absurd hg hgt⟩
    rw [heq]
    omega

/-- C1 witness: the amended start-scenario theorem at a concrete instant. -/
theorem start_scenario_witness :
    ∃ res, lambda_handler { rdsInstanceId := "db1", stopAfterMinutes := 30, startAfterDays := 6 }
        "arn" false (Except.ok "stopped")
        [{ stateKey := "RDSControl", timestamp := 1000000 - 7 * 86400, state := "stopped" }]
        1000000 1000000 = Except.ok res ∧
      res.rdsStartCalls = ["db1"] ∧ res.rdsStopCalls = [] ∧
      res.writes = [{ stateKey := "RDSControl", timestamp := 1000000, state := "available" }] ∧
      res.table =
        [{ stateKey := "RDSControl", timestamp := 1000000 - 7 * 86400, state := "stopped" },
         { stateKey := "RDSControl", timestamp := 1000000, state := "available" }] ∧
      res.scheduledRules = [{ ruleName := "stop-instance-lambda-trigger",
                              fireTime := 1000000 + 30 * 60, targetArn := "arn" }] ∧
      res.snsPublished.map SnsMessage.subject = ["RDS Manager - Instance Started"] ∧
      res.payload.state = "stopped" ∧ res.payload.timestamp = 1000000 :=
  start_scenario { rdsInstanceId := "db1", stopAfterMinutes := 30, startAfterDays := 6 } "arn"
    1000000 rfl rfl

/-- C2 witness: the amended no-op scenario theorem at a concrete instant. -/
theorem noop_scenario_witness :
    latestItem [{ stateKey := "RDSControl", timestamp := 1400, state := "available" }]
        "RDSControl" =
      some { stateKey := "RDSControl", timestamp := 1400, state := "available" } ∧
    (2000 : Int) - 1400 < 30 * 60 ∧
    (∃ res, lambda_handler { rdsInstanceId := "db1", stopAfterMinutes := 30, startAfterDays := 6 }
        "arn" false (Except.ok "available")
        [{ stateKey := "RDSControl", timestamp := 1400, state := "available" }] 2000 2000 =
          Except.ok res ∧
      res.rdsStartCalls = [] ∧ res.rdsStopCalls = [] ∧ res.writes = [] ∧
      res.table = [{ stateKey := "RDSControl", timestamp := 1400, state := "available" }] ∧
      res.payload.state = "available" ∧
      res.payload.message = "RDS instance available." ∧
      ¬ ("no action".data <:+: res.payload.message.data) ∧
      res.snsPublished.map SnsMessage.subject = ["RDS Manager - No Action Taken"]) :=
  ⟨by decide, by decide,
    noop_scenario { rdsInstanceId := "db1", stopAfterMinutes := 30, startAfterDays := 6 } "arn"
      [{ stateKey := "RDSControl", timestamp := 1400, state := "available" }] 2000 2000
      { stateKey := "RDSControl", timestamp := 1400, state := "available" }
      (by decide) rfl (by decide)⟩

/-- C5 witness: the bootstrap theorem on an empty store at a concrete instant. -/
theorem bootstrap_starts_witness :
    latestItem ([] : List StateRecord) "RDSControl" = none ∧
    (∃ res, lambda_handler { rdsInstanceId := "db1", stopAfterMinutes := 30, startAfterDays := 6 }
        "arn" false (Except.ok "stopped") [] 1000000 1000000 = Except.ok res ∧
      ({ stateKey := "RDSControl", timestamp := 1000000 - (6 + 1) * 86400,
         state := "stopped" } : StateRecord) ∈ res.table ∧
      (1000000 : Int) - (6 + 1) * 86400 < 1000000 - 6 * 86400 ∧
      res.rdsStartCalls = ["db1"] ∧
      res.writes = [{ stateKey := "RDSControl", timestamp := 1000000, state := "available" }]) :=
  ⟨rfl, bootstrap_starts { rdsInstanceId := "db1", stopAfterMinutes := 30, startAfterDays := 6 }
    "arn" [] 1000000 1000000 rfl (by decide) (by decide) (by decide)⟩

/-- C7 witness: drift correction on a concrete stale-stopped record. -/
theorem drift_correction_no_start_witness :
    latestItem [{ stateKey := "RDSControl", timestamp := 100, state := "stopped" }]
        "RDSControl" =
      some { stateKey := "RDSControl", timestamp := 100, state := "stopped" } ∧
    (∃ res, lambda_handler { rdsInstanceId := "db1", stopAfterMinutes := 30, startAfterDays := 6 }
        "arn" false (Except.ok "available")
        [{ stateKey := "RDSControl", timestamp := 100, state := "stopped" }] 2000 2000 =
          Except.ok res ∧
      res.rdsStartCalls = [] ∧
      res.writes.head? =
        some { stateKey := "RDSControl", timestamp := 2000, state := "available" } ∧
      res.payload.state = "available") :=
  ⟨by decide, drift_correction_no_start
    { rdsInstanceId := "db1", stopAfterMinutes := 30, startAfterDays := 6 } "arn"
    [{ stateKey := "RDSControl", timestamp := 100, state := "stopped" }] 2000 2000
    { stateKey := "RDSControl", timestamp := 100, state := "stopped" } (by decide) rfl⟩

/-- C8 witness: the idempotent no-op theorem at a concrete instant. -/
theorem idempotent_noop_witness :
    latestItem [{ stateKey := "RDSControl", timestamp := 1400, state := "available" }]
        "RDSControl" =
      some { stateKey := "RDSControl", timestamp := 1400, state := "available" } ∧
    (2000 : Int) - 1400 < 30 * 60 ∧
    (∃ res, lambda_handler { rdsInstanceId := "db1", stopAfterMinutes := 30, startAfterDays := 6 }
        "arn" false (Except.ok "available")
        [{ stateKey := "RDSControl", timestamp := 1400, state := "available" }] 2000 1999 =
          Except.ok res ∧
      res.rdsStopCalls = [] ∧ res.rdsStartCalls = [] ∧
      res.writes = [] ∧
      res.table = [{ stateKey := "RDSControl", timestamp := 1400, state := "available" }]) :=
  ⟨by decide, by decide,
    idempotent_noop { rdsInstanceId := "db1", stopAfterMinutes := 30, startAfterDays := 6 } "arn"
      [{ stateKey := "RDSControl", timestamp := 1400, state := "available" }] 2000 1999
      { stateKey := "RDSControl", timestamp := 1400, state := "available" }
      (by decide) rfl (by decide)⟩

/-- C9 witness: a failed status query on a concrete available record. -/
theorem statusFailure_writes_unknown_witness :
    latestItem [{ stateKey := "RDSControl", timestamp := 100, state := "available" }]
        "RDSControl" =
      some { stateKey := "RDSControl", timestamp := 100, state := "available" } ∧
    ("available" : String) ≠ "unknown" ∧
    (∃ res, lambda_handler { rdsInstanceId := "db1", stopAfterMinutes := 30, startAfterDays := 6 }
        "arn" false (Except.error ())
        [{ stateKey := "RDSControl", timestamp := 100, state := "available" }] 2000 2000 =
          Except.ok res ∧
      res.writes = [{ stateKey := "RDSControl", timestamp := 2000, state := "unknown" }] ∧
      res.table = log_state_change
        [{ stateKey := "RDSControl", timestamp := 100, state := "available" }] "unknown" 2000 ∧
      res.rdsStartCalls = [] ∧ res.rdsStopCalls = []) :=
  ⟨by decide, by decide,
    statusFailure_writes_unknown
      { rdsInstanceId := "db1", stopAfterMinutes := 30, startAfterDays := 6 } "arn"
      [{ stateKey := "RDSControl", timestamp := 100, state := "available" }] 2000 2000
      { stateKey := "RDSControl", timestamp := 100, state := "available" }
      (by decide) (by decide)⟩

/-- C10 witness: pre-drift elapsed time on a concrete stale record. -/
theorem stop_uses_preDrift_elapsed_witness :
    latestItem [{ stateKey := "RDSControl", timestamp := 100, state := "stopped" }]
        "RDSControl" =
      some { stateKey := "RDSControl", timestamp := 100, state := "stopped" } ∧
    (30 : Int) * 60 ≤ 2000 - 100 ∧
    (∃ res, lambda_handler { rdsInstanceId := "db1", stopAfterMinutes := 30, startAfterDays := 6 }
        "arn" false (Except.ok "available")
        [{ stateKey := "RDSControl", timestamp := 100, state := "stopped" }] 2000 2000 =
          Except.ok res ∧
      res.rdsStopCalls = ["db1"] ∧ res.rdsStartCalls = [] ∧
      res.writes = [{ stateKey := "RDSControl", timestamp := 2000, state := "available" },
                    { stateKey := "RDSControl", timestamp := 2000, state := "stopped" }]) :=
  ⟨by decide, by decide,
    stop_uses_preDrift_elapsed
      { rdsInstanceId := "db1", stopAfterMinutes := 30, startAfterDays := 6 } "arn"
      [{ stateKey := "RDSControl", timestamp := 100, state := "stopped" }] 2000 2000
      { stateKey := "RDSControl", timestamp := 100, state := "stopped" }
      (by decide) rfl (by decide)⟩

/-- C6 witness: the retention theorem on a full ten-record partition. -/
theorem retention_bound_witness :
    KeysNodup retentionWitnessTable ∧
    queryCount retentionWitnessTable "RDSControl" ≤ MAX_ROWS ∧
    (queryCount (log_state_change retentionWitnessTable "available" 100) "RDSControl" ≤
        MAX_ROWS ∧
      (MAX_ROWS < queryCount (put_item retentionWitnessTable
          { stateKey := "RDSControl", timestamp := 100, state := "available" }) "RDSControl" →
        ∃ o, oldestItem (put_item retentionWitnessTable
            { stateKey := "RDSControl", timestamp := 100, state := "available" }) "RDSControl" =
            some o ∧
          o.stateKey = "RDSControl" ∧
          (∀ x ∈ put_item retentionWitnessTable
              { stateKey := "RDSControl", timestamp := 100, state := "available" },
            x.stateKey = "RDSControl" → o.timestamp ≤ x.timestamp) ∧
          log_state_change retentionWitnessTable "available" 100 =
            delete_item (put_item retentionWitnessTable
              { stateKey := "RDSControl", timestamp := 100, state := "available" })
              o.stateKey o.timestamp ∧
          queryCount (log_state_change retentionWitnessTable "available" 100) "RDSControl" =
            queryCount (put_item retentionWitnessTable
              { stateKey := "RDSControl", timestamp := 100, state := "available" })
              "RDSControl" - 1)) :=
  ⟨by decide, by decide,
    retention_bound retentionWitnessTable "available" 100 (by decide) (by decide)⟩
